import Mathlib

set_option maxRecDepth 8000

/-!
Verification of the APQ (Automatic Persisted Queries) pipeline stage.

The repository's single source file, src/examples/apq/rust/src/apq.rs, is a
router plugin scaffold: it declares APQLayer, Conf and the Apq plugin and wires
an async checkpoint into the router service chain, but the APQ decision logic
itself is absent (the body of APQLayer::request is "// snip todo - actual apq
logic; return Ok(request)").

This file therefore contains two embeddings:
  1. a model of the APQ core (HashCodec, QueryStore, APQProtocol, PipelineGate)
     built from the specification, since that code is missing from the source;
     each such definition carries a doc comment starting "Modelled from the
     spec:";
  2. a faithful shallow embedding of the stub code that does exist
     (APQLayer.request, Conf, Apq and the checkpoint wiring of router_service),
     used for the claims about the code as written.
-/

namespace APQ

/-! ## HashCodec: SHA-256 over Nat, words reduced mod 2^32.

Modelled from the spec (section 4.1): the stub never defines the hash
algorithm, and the spec adopts lowercase-hex SHA-256 of the UTF-8 bytes. -/

def w32 : Nat := 4294967296

def rotr (n x : Nat) : Nat := ((x >>> n) ||| (x <<< (32 - n))) % w32

def bigSigma0 (x : Nat) : Nat := (rotr 2 x) ^^^ (rotr 13 x) ^^^ (rotr 22 x)

def bigSigma1 (x : Nat) : Nat := (rotr 6 x) ^^^ (rotr 11 x) ^^^ (rotr 25 x)

def smallSigma0 (x : Nat) : Nat := (rotr 7 x) ^^^ (rotr 18 x) ^^^ (x >>> 3)

def smallSigma1 (x : Nat) : Nat := (rotr 17 x) ^^^ (rotr 19 x) ^^^ (x >>> 10)

def chFn (x y z : Nat) : Nat := (x &&& y) ^^^ ((x ^^^ 4294967295) &&& z)

def majFn (x y z : Nat) : Nat := (x &&& y) ^^^ (x &&& z) ^^^ (y &&& z)

def roundConstants : List Nat :=
  [1116352408, 1899447441, 3049323471, 3921009573, 961987163, 1508970993,
   2453635748, 2870763221, 3624381080, 310598401, 607225278, 1426881987,
   1925078388, 2162078206, 2614888103, 3248222580, 3835390401, 4022224774,
   264347078, 604807628, 770255983, 1249150122, 1555081692, 1996064986,
   2554220882, 2821834349, 2952996808, 3210313671, 3336571891, 3584528711,
   113926993, 338241895, 666307205, 773529912, 1294757372, 1396182291,
   1695183700, 1986661051, 2177026350, 2456956037, 2730485921, 2820302411,
   3259730800, 3345764771, 3516065817, 3600352804, 4094571909, 275423344,
   430227734, 506948616, 659060556, 883997877, 958139571, 1322822218,
   1537002063, 1747873779, 1955562222, 2024104815, 2227730452, 2361852424,
   2428436474, 2756734187, 3204031479, 3329325298]

structure Hash8 where
  a : Nat
  b : Nat
  c : Nat
  d : Nat
  e : Nat
  f : Nat
  g : Nat
  h : Nat
deriving DecidableEq

def initHash : Hash8 :=
  ⟨1779033703, 3144134277, 1013904242, 2773480762,
   1359893119, 2600822924, 528734635, 1541459225⟩

def sha256Round (s : Hash8) (k w : Nat) : Hash8 :=
  let t1 := (s.h + bigSigma1 s.e + chFn s.e s.f s.g + k + w) % w32
  let t2 := (bigSigma0 s.a + majFn s.a s.b s.c) % w32
  ⟨(t1 + t2) % w32, s.a, s.b, s.c, (s.d + t1) % w32, s.e, s.f, s.g⟩

def bytesToWords : List Nat → List Nat
  | a :: b :: c :: d :: rest => (a * 16777216 + b * 65536 + c * 256 + d) :: bytesToWords rest
  | _ => []

def extendSchedule : List Nat → Nat → List Nat
  | w, 0 => w
  | w, n + 1 =>
    let L := w.length
    let t := (smallSigma1 (w.getD (L - 2) 0) + w.getD (L - 7) 0 +
              smallSigma0 (w.getD (L - 15) 0) + w.getD (L - 16) 0) % w32
    extendSchedule (w ++ [t]) n

def schedule (block : List Nat) : List Nat := extendSchedule (bytesToWords block) 48

def compressBlock (s : Hash8) (block : List Nat) : Hash8 :=
  let t := (roundConstants.zip (schedule block)).foldl (fun st kw => sha256Round st kw.1 kw.2) s
  ⟨(s.a + t.a) % w32, (s.b + t.b) % w32, (s.c + t.c) % w32, (s.d + t.d) % w32,
   (s.e + t.e) % w32, (s.f + t.f) % w32, (s.g + t.g) % w32, (s.h + t.h) % w32⟩

def pad (msg : List Nat) : List Nat :=
  let len := msg.length
  let zeros := (119 - len % 64) % 64
  let bits := 8 * len
  msg ++ [128] ++ List.replicate zeros 0 ++
    [(bits >>> 56) % 256, (bits >>> 48) % 256, (bits >>> 40) % 256, (bits >>> 32) % 256,
     (bits >>> 24) % 256, (bits >>> 16) % 256, (bits >>> 8) % 256, bits % 256]

def chunksAux : Nat → List Nat → List (List Nat)
  | 0, _ => []
  | _, [] => []
  | n + 1, l => l.take 64 :: chunksAux n (l.drop 64)

def chunks64 (l : List Nat) : List (List Nat) := chunksAux l.length l

def wordToBytes (w : Nat) : List Nat := [(w >>> 24) % 256, (w >>> 16) % 256, (w >>> 8) % 256, w % 256]

def sha256 (msg : List Nat) : List Nat :=
  let s := (chunks64 (pad msg)).foldl compressBlock initHash
  ([s.a, s.b, s.c, s.d, s.e, s.f, s.g, s.h].map wordToBytes).flatten

def utf8Encode (c : Nat) : List Nat :=
  if c < 128 then [c]
  else if c < 2048 then [192 ||| (c >>> 6), 128 ||| (c &&& 63)]
  else if c < 65536 then [224 ||| (c >>> 12), 128 ||| ((c >>> 6) &&& 63), 128 ||| (c &&& 63)]
  else [240 ||| (c >>> 18), 128 ||| ((c >>> 12) &&& 63), 128 ||| ((c >>> 6) &&& 63), 128 ||| (c &&& 63)]

def stringToBytes (s : String) : List Nat := (s.data.map (fun c => utf8Encode c.toNat)).flatten

def hexDigit (n : Nat) : Char := if n < 10 then Char.ofNat (48 + n) else Char.ofNat (87 + n)

def byteToHex (b : Nat) : List Char := [hexDigit (b / 16), hexDigit (b % 16)]

/-- Modelled from the spec (section 4.1): the lowercase hex SHA-256 digest of
the UTF-8 bytes of the text. -/
def hashOf (s : String) : String := String.mk ((sha256 (stringToBytes s)).map byteToHex).flatten

/-! ## Data model -/

/-- Modelled from the spec (section 3): the persistedQuery extension, with a
protocol version and the client-supplied hash. -/
structure PersistedQueryExtension where
  version : Int
  sha256Hash : String
deriving DecidableEq

/-- Modelled from the spec (section 3): a GraphQL operation with an optional
query document and the optional parsed persistedQuery extension. -/
structure Operation where
  query : Option String
  persistedQuery : Option PersistedQueryExtension
deriving DecidableEq

/-- Modelled from the spec (section 7): the three protocol error kinds. -/
inductive ErrorKind where
  | PersistedQueryNotSupported
  | PersistedQueryNotFound
  | PersistedQueryHashMismatch
deriving DecidableEq

/-- Modelled from the spec (section 3): the sole output of APQProtocol. -/
inductive Decision where
  | PassThrough
  | Continue (op : Operation)
  | Reject (e : ErrorKind)
deriving DecidableEq

/-! ## QueryStore -/

/-- Modelled from the spec (sections 3 and 4.2): a bounded mapping from hash to
query text; the entry list is kept most-recently-inserted first, so the last
entry is the least recently used one. -/
structure QueryStore where
  capacity : Nat
  entries : List (String × String)
deriving DecidableEq

def lookupEntry (k : String) : List (String × String) → Option String
  | [] => none
  | e :: rest => if e.1 = k then some e.2 else lookupEntry k rest

/-- Modelled from the spec (section 4.2): a miss is an empty result, never an
error. -/
def QueryStore.get (s : QueryStore) (k : String) : Option String :=
  lookupEntry k s.entries

/-- Modelled from the spec (section 4.2): insert the pair, replacing any entry
with the same key (so a repeated put of the same pair is observably a no-op),
and evict from the least-recently-used end when over capacity. -/
def QueryStore.put (s : QueryStore) (k t : String) : QueryStore :=
  QueryStore.mk s.capacity
    (((k, t) :: s.entries.filter (fun e => decide (e.1 ≠ k))).take s.capacity)

/-- Modelled from the spec (section 3): the store starts empty with a fixed
capacity chosen at gateway startup. -/
def emptyStore (cap : Nat) : QueryStore := QueryStore.mk cap []

/-! ## APQProtocol -/

/-- Modelled from the spec (section 4.3): the APQ decision state machine.
Classify by presence of the persistedQuery extension, its version, and presence
of the query text; return the decision together with the possibly-updated
store. -/
def apqDecide (store : QueryStore) (op : Operation) : Decision × QueryStore :=
  match op.persistedQuery with
  | none => (Decision.PassThrough, store)
  | some pq =>
    if pq.version = 1 then
      match op.query with
      | some q =>
        if hashOf q = pq.sha256Hash then
          (Decision.Continue op, store.put pq.sha256Hash q)
        else
          (Decision.Reject ErrorKind.PersistedQueryHashMismatch, store)
      | none =>
        match store.get pq.sha256Hash with
        | some text => (Decision.Continue (Operation.mk (some text) op.persistedQuery), store)
        | none => (Decision.Reject ErrorKind.PersistedQueryNotFound, store)
    else
      (Decision.Reject ErrorKind.PersistedQueryNotSupported, store)

/-! ## PipelineGate -/

/-- A terminal router response: either data produced by the downstream stage or
a structured protocol error. -/
inductive RouterResponse where
  | data (body : String)
  | error (e : ErrorKind)
deriving DecidableEq

/-- The observable outcome of one run of the gate: the response, the resulting
store, whether the downstream stage was invoked, and, when it was, the
operation it received. -/
structure GateResult where
  response : RouterResponse
  store : QueryStore
  downstreamInvoked : Bool
  forwardedOp : Option Operation
deriving DecidableEq

/-- Modelled from the spec (sections 4.4 and 6): run APQProtocol and translate
its decision; on PassThrough or Continue forward to the downstream stage, on
Reject return a terminal error without invoking it; when the stage is disabled
behave as pure pass-through regardless of extension content. -/
def pipelineGate (enabled : Bool) (store : QueryStore) (op : Operation)
    (downstream : Operation → RouterResponse) : GateResult :=
  if enabled then
    match apqDecide store op with
    | (Decision.PassThrough, s) => GateResult.mk (downstream op) s true (some op)
    | (Decision.Continue op2, s) => GateResult.mk (downstream op2) s true (some op2)
    | (Decision.Reject e, s) => GateResult.mk (RouterResponse.error e) s false none
  else
    GateResult.mk (downstream op) store true (some op)

/-! ## The stub as written (shallow embedding of apq.rs) -/

/-- From the source: APQLayer holds only a placeholder cache string. -/
structure APQLayer where
  cache : String
deriving DecidableEq

/-- From the source: the body of APQLayer::request is the stub
"return Ok(request)" (the actual APQ logic is marked snip todo), so every
request is returned unchanged on the Ok branch. -/
def APQLayer.request (layer : APQLayer) (request : Operation) :
    Except RouterResponse Operation :=
  Except.ok request

/-- From the source: the plugin configuration, a single enabled flag. -/
structure Conf where
  enabled : Bool
deriving DecidableEq

/-- From the source: the plugin holds its configuration and the APQ layer. -/
structure Apq where
  configuration : Conf
  apq_layer : APQLayer
deriving DecidableEq

/-- From the source: Apq::new stores the given configuration and a fresh
APQLayer with the placeholder cache string. -/
def Apq.new (config : Conf) : Apq :=
  Apq.mk config (APQLayer.mk "Some caching functionality")

/-- The checkpoint control flow of the router framework: Continue carries the
request to the downstream service, Break short-circuits with a response. -/
inductive CheckpointFlow where
  | Break (response : RouterResponse)
  | Continue (request : Operation)
deriving DecidableEq

/-- From the source: the closure passed to checkpoint_async in router_service
maps the Ok branch of APQLayer::request to ControlFlow::Continue and the Err
branch to ControlFlow::Break. -/
def Apq.checkpoint (p : Apq) (req : Operation) : CheckpointFlow :=
  match p.apq_layer.request req with
  | Except.ok request => CheckpointFlow.Continue request
  | Except.error routerResponse => CheckpointFlow.Break routerResponse

/-- From the source: the service built by router_service runs the checkpoint;
on Continue the downstream service is invoked with the carried request, on
Break the response is returned without invoking it.  The Bool records whether
the downstream service was invoked. -/
def Apq.routerService (p : Apq) (downstream : Operation → RouterResponse)
    (req : Operation) : RouterResponse × Bool :=
  match p.checkpoint req with
  | CheckpointFlow.Continue r => (downstream r, true)
  | CheckpointFlow.Break resp => (resp, false)

/-! ## Reachability and the hash-consistency invariant -/

/-- The stores reachable by running the APQ protocol from a fresh store. -/
inductive ReachableStore : QueryStore → Prop where
  | empty (cap : Nat) : ReachableStore (emptyStore cap)
  | step (s : QueryStore) (op : Operation) :
      ReachableStore s → ReachableStore (apqDecide s op).2

/-- Every retrievable entry has text whose hash is its key. -/
def hashConsistent (s : QueryStore) : Prop :=
  ∀ k t, s.get k = some t → hashOf t = k

/-! ## Concrete inputs for witnesses (the literal scenarios of spec section 8) -/

def helloQuery : String := "\x7b hello \x7d"

def helloHash : String := "001c3174e099bd72b729d0c0a529ba9f5a740c446e2a6e1d71b283cb84ec3065"

def helloExt : PersistedQueryExtension := PersistedQueryExtension.mk 1 helloHash

def registerOp : Operation := Operation.mk (some helloQuery) (some helloExt)

def hashOnlyOp : Operation := Operation.mk none (some helloExt)

def storeAfterRegister : QueryStore := (apqDecide (emptyStore 16) registerOp).2

def mismatchExt : PersistedQueryExtension :=
  PersistedQueryExtension.mk 1 "deadbeefdeadbeefdeadbeefdeadbeefdeadbeefdeadbeefdeadbeefdeadbeef"

def mismatchOp : Operation := Operation.mk (some helloQuery) (some mismatchExt)

def wrongVersionExt : PersistedQueryExtension := PersistedQueryExtension.mk 2 helloHash

def wrongVersionOp : Operation := Operation.mk (some helloQuery) (some wrongVersionExt)

def plainOp : Operation := Operation.mk (some helloQuery) none

def okDownstream : Operation → RouterResponse := fun _ => RouterResponse.data "ok"

end APQ

namespace APQ

/-! ## Store lemmas -/

theorem lookupEntry_take (k t : String) :
    ∀ (n : Nat) (l : List (String × String)),
      lookupEntry k (l.take n) = some t → lookupEntry k l = some t := by
  intro n l
  induction l generalizing n with
  | nil => simp [List.take_nil]
  | cons e rest ih =>
    cases n with
    | zero => simp [lookupEntry]
    | succ m =>
      simp only [List.take_succ_cons, lookupEntry]
      by_cases he : e.1 = k
      · simp [he]
      · simp only [he, if_false]
        exact ih m

theorem lookupEntry_filter_ne (k hsh : String) (hne : k ≠ hsh) :
    ∀ l : List (String × String),
      lookupEntry k (l.filter (fun e => decide (e.1 ≠ hsh))) = lookupEntry k l := by
  intro l
  induction l with
  | nil => rfl
  | cons e rest ih =>
    by_cases hd : e.1 = hsh
    · have hek : e.1 ≠ k := by rw [hd]; exact Ne.symm hne
      have hfil : (e :: rest).filter (fun e => decide (e.1 ≠ hsh))
          = rest.filter (fun e => decide (e.1 ≠ hsh)) := by
        simp [List.filter_cons, hd]
      rw [hfil, ih]
      simp only [lookupEntry]
      rw [if_neg hek]
    · have hfil : (e :: rest).filter (fun e => decide (e.1 ≠ hsh))
          = e :: rest.filter (fun e => decide (e.1 ≠ hsh)) := by
        simp [List.filter_cons, hd]
      rw [hfil]
      simp only [lookupEntry]
      rw [ih]

theorem get_put_self (s : QueryStore) (k t : String) (hcap : 0 < s.capacity) :
    (s.put k t).get k = some t := by
  unfold QueryStore.put QueryStore.get
  cases hc : s.capacity with
  | zero => omega
  | succ m => simp [hc, List.take_succ_cons, lookupEntry]

theorem hashConsistent_put (s : QueryStore) (k t : String)
    (hs : hashConsistent s) (hk : hashOf t = k) : hashConsistent (s.put k t) := by
  intro k2 t2 hget
  unfold QueryStore.put QueryStore.get at hget
  have h1 : lookupEntry k2 ((k, t) :: s.entries.filter (fun e => decide (e.1 ≠ k)))
      = some t2 := lookupEntry_take k2 t2 s.capacity _ hget
  by_cases hkk : k = k2
  · simp only [lookupEntry, hkk, if_pos rfl] at h1
    cases h1
    exact hkk ▸ hk
  · simp only [lookupEntry, hkk, if_false] at h1
    rw [lookupEntry_filter_ne k2 k (fun h => hkk h.symm)] at h1
    exact hs k2 t2 h1

theorem apqDecide_preserves (s : QueryStore) (op : Operation)
    (hs : hashConsistent s) : hashConsistent (apqDecide s op).2 := by
  unfold apqDecide
  cases hpq : op.persistedQuery with
  | none => exact hs
  | some pq =>
    by_cases hv : pq.version = 1
    · simp only [hv, if_pos rfl]
      cases hq : op.query with
      | some q =>
        by_cases hh : hashOf q = pq.sha256Hash
        · simp only [hh, if_pos rfl]
          exact hashConsistent_put s pq.sha256Hash q hs hh
        · simp only [hh, if_false]
          exact hs
      | none =>
        cases hg : s.get pq.sha256Hash with
        | some text => exact hs
        | none => exact hs
    · simp only [hv, if_false]
      exact hs

end APQ

namespace APQ

/-! ## Claim theorems -/

theorem reachable_hashConsistent (s : QueryStore) (hre : ReachableStore s) :
    hashConsistent s := by
  induction hre with
  | empty cap =>
    intro k t hget
    simp [emptyStore, QueryStore.get, lookupEntry] at hget
  | step s2 op hs ih => exact apqDecide_preserves s2 op ih

/-- Claim C1: when the persistedQuery extension is present with version 1, the
query text is present, and its hash equals the supplied sha256Hash, the
protocol emits Continue with the operation unchanged and stores the pair
(sha256Hash, query) in the QueryStore, where it is retrievable whenever the
store's capacity is positive. -/
theorem apq_register_stores_and_continues (store : QueryStore) (op : Operation)
    (pq : PersistedQueryExtension) (q : String)
    (hpq : op.persistedQuery = some pq) (hv : pq.version = 1)
    (hq : op.query = some q) (hh : hashOf q = pq.sha256Hash) :
    apqDecide store op = (Decision.Continue op, store.put pq.sha256Hash q) ∧
    (0 < store.capacity → (apqDecide store op).2.get pq.sha256Hash = some q) := by
  have hd : apqDecide store op = (Decision.Continue op, store.put pq.sha256Hash q) := by
    unfold apqDecide
    rw [hpq, hq]
    simp [hv, hh]
  refine ⟨hd, fun hcap => ?_⟩
  rw [hd]
  exact get_put_self store pq.sha256Hash q hcap

/-- Witness for C1 at the literal scenario-2 input of the spec. -/
theorem apq_register_stores_and_continues_witness :
    apqDecide (emptyStore 16) registerOp
      = (Decision.Continue registerOp, (emptyStore 16).put helloHash helloQuery) ∧
    (apqDecide (emptyStore 16) registerOp).2.get helloHash = some helloQuery := by
  have h := apq_register_stores_and_continues (emptyStore 16) registerOp helloExt
    helloQuery rfl rfl rfl (by decide)
  exact ⟨h.1, h.2 (by decide)⟩

/-- Claim C2: with extension present, version 1, and no query text, the
protocol looks up sha256Hash in the store: a hit emits Continue with the
operation's query set to the stored text, a miss emits
Reject(PersistedQueryNotFound); the store is unchanged either way. -/
theorem apq_hash_only_lookup (store : QueryStore) (op : Operation)
    (pq : PersistedQueryExtension)
    (hpq : op.persistedQuery = some pq) (hv : pq.version = 1) (hq : op.query = none) :
    (∀ t, store.get pq.sha256Hash = some t →
        apqDecide store op
          = (Decision.Continue (Operation.mk (some t) op.persistedQuery), store)) ∧
    (store.get pq.sha256Hash = none →
        apqDecide store op = (Decision.Reject ErrorKind.PersistedQueryNotFound, store)) := by
  constructor
  · intro t ht
    unfold apqDecide
    rw [hpq, hq]
    simp [hv, ht]
  · intro ht
    unfold apqDecide
    rw [hpq, hq]
    simp [hv, ht]

/-- Witness for C2: scenario 3 (hit after registration) and scenario 4 (miss
on a fresh store) at the literal inputs of the spec. -/
theorem apq_hash_only_lookup_witness :
    apqDecide storeAfterRegister hashOnlyOp
      = (Decision.Continue (Operation.mk (some helloQuery) (some helloExt)),
          storeAfterRegister) ∧
    apqDecide (emptyStore 16) hashOnlyOp
      = (Decision.Reject ErrorKind.PersistedQueryNotFound, emptyStore 16) := by
  constructor
  · exact (apq_hash_only_lookup storeAfterRegister hashOnlyOp helloExt
      rfl rfl rfl).1 helloQuery (by decide)
  · exact (apq_hash_only_lookup (emptyStore 16) hashOnlyOp helloExt
      rfl rfl rfl).2 (by decide)

/-- Claim C3: with extension present, version 1, and query text whose hash
does not equal the supplied sha256Hash, the protocol rejects with
PersistedQueryHashMismatch and the store is left unchanged. -/
theorem apq_hash_mismatch_rejects (store : QueryStore) (op : Operation)
    (pq : PersistedQueryExtension) (q : String)
    (hpq : op.persistedQuery = some pq) (hv : pq.version = 1)
    (hq : op.query = some q) (hh : hashOf q ≠ pq.sha256Hash) :
    apqDecide store op = (Decision.Reject ErrorKind.PersistedQueryHashMismatch, store) := by
  unfold apqDecide
  rw [hpq, hq]
  simp [hv, hh]

/-- Witness for C3 at the literal scenario-5 input of the spec. -/
theorem apq_hash_mismatch_rejects_witness :
    apqDecide (emptyStore 16) mismatchOp
      = (Decision.Reject ErrorKind.PersistedQueryHashMismatch, emptyStore 16) :=
  apq_hash_mismatch_rejects (emptyStore 16) mismatchOp mismatchExt helloQuery
    rfl rfl rfl (by decide)

/-- Claim C4: with extension present and version not equal to 1, the protocol
rejects with PersistedQueryNotSupported whatever the query field holds, and
the store is left unchanged. -/
theorem apq_wrong_version_rejects (store : QueryStore) (op : Operation)
    (pq : PersistedQueryExtension)
    (hpq : op.persistedQuery = some pq) (hv : pq.version ≠ 1) :
    apqDecide store op = (Decision.Reject ErrorKind.PersistedQueryNotSupported, store) := by
  unfold apqDecide
  rw [hpq]
  simp [hv]

/-- Witness for C4 at the literal scenario-6 input of the spec. -/
theorem apq_wrong_version_rejects_witness :
    apqDecide (emptyStore 16) wrongVersionOp
      = (Decision.Reject ErrorKind.PersistedQueryNotSupported, emptyStore 16) :=
  apq_wrong_version_rejects (emptyStore 16) wrongVersionOp wrongVersionExt rfl (by decide)

/-- Claim C5: hash-consistency invariant: in every store reachable by running
the protocol from a fresh store, every retrievable entry maps its key to text
whose SHA-256 hash equals that key. -/
theorem store_hash_invariant (s : QueryStore) (hre : ReachableStore s)
    (k t : String) (hget : s.get k = some t) : hashOf t = k :=
  reachable_hashConsistent s hre k t hget

/-- Witness for C5 at the store reached by registering the hello query. -/
theorem store_hash_invariant_witness : hashOf helloQuery = helloHash :=
  store_hash_invariant _
    (ReachableStore.step (emptyStore 16) registerOp (ReachableStore.empty 16))
    helloHash helloQuery (by decide)

/-- Claim C6: whenever the protocol's decision is Reject, the enabled gate
returns the terminal error response immediately and the downstream stage is
not invoked. -/
theorem gate_reject_short_circuits (store : QueryStore) (op : Operation)
    (e : ErrorKind) (downstream : Operation → RouterResponse)
    (hrej : (apqDecide store op).1 = Decision.Reject e) :
    pipelineGate true store op downstream
      = GateResult.mk (RouterResponse.error e) (apqDecide store op).2 false none := by
  cases hd : apqDecide store op with
  | mk d s2 =>
    rw [hd] at hrej
    have hrej2 : d = Decision.Reject e := hrej
    subst hrej2
    unfold pipelineGate
    rw [hd]
    simp

/-- Witness for C6 at scenario 4: a hash-only request against a fresh store is
rejected and the downstream stage is not invoked. -/
theorem gate_reject_short_circuits_witness :
    pipelineGate true (emptyStore 16) hashOnlyOp okDownstream
      = GateResult.mk (RouterResponse.error ErrorKind.PersistedQueryNotFound)
          (apqDecide (emptyStore 16) hashOnlyOp).2 false none :=
  gate_reject_short_circuits (emptyStore 16) hashOnlyOp
    ErrorKind.PersistedQueryNotFound okDownstream (by decide)

/-- Claim C7: with no persistedQuery extension the protocol emits PassThrough
with the store unchanged, and the enabled gate forwards the operation to the
downstream stage unchanged. -/
theorem apq_no_extension_passthrough (store : QueryStore) (op : Operation)
    (downstream : Operation → RouterResponse) (hpq : op.persistedQuery = none) :
    apqDecide store op = (Decision.PassThrough, store) ∧
    pipelineGate true store op downstream
      = GateResult.mk (downstream op) store true (some op) := by
  have hd : apqDecide store op = (Decision.PassThrough, store) := by
    unfold apqDecide
    rw [hpq]
  refine ⟨hd, ?_⟩
  simp [pipelineGate, hd]

/-- Witness for C7 at the literal scenario-1 input of the spec. -/
theorem apq_no_extension_passthrough_witness :
    apqDecide (emptyStore 16) plainOp = (Decision.PassThrough, emptyStore 16) ∧
    pipelineGate true (emptyStore 16) plainOp okDownstream
      = GateResult.mk (okDownstream plainOp) (emptyStore 16) true (some plainOp) :=
  apq_no_extension_passthrough (emptyStore 16) plainOp okDownstream rfl

/-- Claim C8: with the configuration flag disabled the gate is a pure
pass-through for every request: the downstream stage receives the request
unchanged, the store is untouched, and no rejection is produced, regardless of
the content of the persistedQuery extension. -/
theorem gate_disabled_passthrough (store : QueryStore) (op : Operation)
    (downstream : Operation → RouterResponse) :
    pipelineGate false store op downstream
      = GateResult.mk (downstream op) store true (some op) := rfl

/-- Claim C9: in the stub as written, APQLayer.request always returns the Ok
branch carrying the input request unchanged, so the checkpoint always yields
Continue and the downstream service is invoked for every request, whatever the
query or extensions contain. -/
theorem stub_request_always_ok (p : Apq) (req : Operation)
    (downstream : Operation → RouterResponse) :
    p.apq_layer.request req = Except.ok req ∧
    p.checkpoint req = CheckpointFlow.Continue req ∧
    p.routerService downstream req = (downstream req, true) :=
  ⟨rfl, rfl, rfl⟩

/-- Claim C10: the stub's request handling does not depend on the enabled
configuration value: two plugins differing only in their configuration make
the same checkpoint decision and produce the same service result on every
request. -/
theorem stub_conf_irrelevant (e1 e2 : Bool) (layer : APQLayer)
    (downstream : Operation → RouterResponse) (req : Operation) :
    (Apq.mk (Conf.mk e1) layer).checkpoint req
      = (Apq.mk (Conf.mk e2) layer).checkpoint req ∧
    (Apq.mk (Conf.mk e1) layer).routerService downstream req
      = (Apq.mk (Conf.mk e2) layer).routerService downstream req :=
  ⟨rfl, rfl⟩

end APQ
